import Mathlib

/-!
Shallow embedding of the MovieNightBot action-dispatch core
(`movienightbot/actions/__init__.py`) and of the `user_vote_count` action
(`movienightbot/actions/user_vote_count.py`).

The dispatch envelope `BaseAction.__call__`, the permission gate
`BaseAction._check_proceed` and the argument utility
`BaseAction.get_message_data` are modelled as executable Lean functions.
Effects (sends to the platform, log statements, the message-cleanup call,
execution of the action body) are recorded in an event trace; exceptions
raised by the platform or the persistence layer are supplied by an
environment record, and the final outcome records whether an exception
propagates out of the dispatch entry point.
-/

namespace MovieNightBot

/-- A sendable destination: the invoking channel, the invoking author
(`msg.channel` / `msg.author`), or some other user or channel. -/
inductive Target where
  | channel
  | author
  | otherDest (id : Nat)
deriving DecidableEq, Repr

/-- Python runtime values as far as the dispatch envelope inspects them:
`None`, strings, ints, tuples, dicts with string keys, and sendable
platform objects (channels/users). -/
inductive PyVal where
  | pnone
  | pstr (s : String)
  | pint (n : Int)
  | ptuple (l : List PyVal)
  | pdict (l : List (String × PyVal))
  | sendable (t : Target)
deriving Repr

/-- The form of a `.send` call: `send(args)` for a plain string payload,
`send(*args)` for a tuple payload, `send(**args)` for a dict payload. -/
inductive SendCall where
  | plain (p : PyVal)
  | positional (l : List PyVal)
  | keyword (l : List (String × PyVal))
deriving Repr

/-- Log levels used by the dispatch code. -/
inductive LogKind where
  | debug
  | info
  | err
deriving DecidableEq, Repr

/-- Observable events of one dispatch: a performed `.send` call on a
target, a log statement, the `cleanup_messages` call, and the execution
of the action body (`await self.action(msg)`). -/
inductive Event where
  | send (t : Target) (c : SendCall)
  | log (k : LogKind)
  | cleanup
  | actionRun
deriving Repr

/-- Exceptions: `discord.Forbidden` carrying its platform error code,
`AttributeError` (attribute access on `None` or a non-sendable), and any
other exception, identified by a description. -/
inductive Exc where
  | forbidden (code : Int)
  | attrError
  | generic (s : String)
deriving DecidableEq, Repr

/-- The fields of a `discord.message` that the dispatch core reads.
`guildId = none` models a direct message (`msg.guild is None`). -/
structure Message where
  guildId : Option Nat
  channelId : Nat
  authorName : String
  authorIsAdmin : Bool
  authorRoles : List String
  content : String

/-- Per-guild settings row (`ServerController().get_by_id`). -/
structure ServerSettings where
  channel : Nat
  admin_role : String
  message_timeout : Int
  num_votes_per_user : Int

/-- The class attributes of a `BaseAction` subclass that the envelope
consults. -/
structure ActionCfg where
  action_name : String
  admin : Bool
  guild_only : Bool

/-- What `await self.action(msg)` does: return a value or raise. -/
inductive ActionResult where
  | ret (v : PyVal)
  | raise (e : Exc)

/-- Whether the dispatch entry point returns normally or lets an
exception propagate out. -/
inductive Outcome where
  | ok
  | raised (e : Exc)
deriving DecidableEq, Repr

/-- The external collaborators of one dispatch: the settings row fetch
(which may raise, e.g. when the guild has no record), the platform send
(which may raise, e.g. `Forbidden` code 50007 for a refused DM), the
action body, and the `cleanup_messages` call. -/
structure Env where
  settings : Except Exc ServerSettings
  sendResult : Target → SendCall → Option Exc
  actionResult : ActionResult
  cleanupResult : Option Exc

/-- `ServerController().get_by_id(msg.guild.id)`: accessing `.id` on a
`None` guild raises `AttributeError`; otherwise the fetch behaves as the
environment dictates. -/
def getSettings (msg : Message) (env : Env) : Except Exc ServerSettings :=
  match msg.guildId with
  | Option.none => Except.error Exc.attrError
  | Option.some _ => env.settings

def dm_notice : String := "You cannot do this command from a DM!"

def not_admin_notice : String := "Hey now, you are not an admin on this server!"

def error_message : String :=
  "OOPSIE WOOPSIE!! UwU We made a fucky wucky!! A wittle fucko boingo! The code " ++
  "monkeys at our headquarters are working VEWY HAWD to fix this!"

def cantDM (name : String) : String := "I cannot DM you " ++ name ++ "!"

/-- `BaseAction._check_proceed`: the permission gate. Returns the event
trace and either the boolean verdict or the exception it raises. -/
def check_proceed (a : ActionCfg) (msg : Message) (env : Env) :
    List Event × Except Exc Bool :=
  if a.guild_only && msg.guildId.isNone then
    let c := SendCall.plain (PyVal.pstr dm_notice)
    match env.sendResult Target.author c with
    | Option.some e =>
        ([Event.log LogKind.debug, Event.send Target.author c], Except.error e)
    | Option.none =>
        ([Event.log LogKind.debug, Event.send Target.author c], Except.ok false)
  else
    match getSettings msg env with
    | Except.error e => ([], Except.error e)
    | Except.ok ss =>
      if msg.channelId ≠ ss.channel then
        ([Event.log LogKind.debug], Except.ok false)
      else if !msg.authorIsAdmin && (a.admin && !(decide (ss.admin_role ∈ msg.authorRoles))) then
        let c := SendCall.plain (PyVal.pstr not_admin_notice)
        match env.sendResult Target.channel c with
        | Option.some e =>
            ([Event.log LogKind.debug, Event.send Target.channel c], Except.error e)
        | Option.none =>
            ([Event.log LogKind.debug, Event.send Target.channel c], Except.ok false)
      else ([], Except.ok true)

/-- The `if type(args) is str / tuple / dict` dispatch of the reply
protocol: the `.send` call shape that a payload of that runtime type
produces, or `none` when no branch matches and no send happens. -/
def shapeCall (args : PyVal) : Option SendCall :=
  match args with
  | PyVal.pstr s => Option.some (SendCall.plain (PyVal.pstr s))
  | PyVal.ptuple l => Option.some (SendCall.positional l)
  | PyVal.pdict l => Option.some (SendCall.keyword l)
  | _ => Option.none

/-- Looking up `.send` on the target object: a non-sendable raises
`AttributeError`. -/
def targetOf : PyVal → Option Target
  | PyVal.sendable t => Option.some t
  | _ => Option.none

/-- Python `"also_delete" in args` for a dict. -/
def hasKey (l : List (String × PyVal)) (k : String) : Bool :=
  l.any (fun kv => kv.fst = k)

/-- The guard `server_settings.message_timeout > 0 and type(args) is dict
and "also_delete" in args` on the cleanup call. -/
def needsCleanup (ss : ServerSettings) (args : PyVal) : Bool :=
  decide (0 < ss.message_timeout) &&
    (match args with
     | PyVal.pdict l => hasKey l "also_delete"
     | _ => false)

/-- The catch-all recovery: `logger.error(...)` then
`msg.channel.send(error_message)`; if that send itself raises, the
exception propagates. -/
def genericFail (env : Env) : List Event × Outcome :=
  let c := SendCall.plain (PyVal.pstr error_message)
  match env.sendResult Target.channel c with
  | Option.some e2 =>
      ([Event.log LogKind.err, Event.send Target.channel c], Outcome.raised e2)
  | Option.none =>
      ([Event.log LogKind.err, Event.send Target.channel c], Outcome.ok)

/-- The two `except` clauses of the main try block of
`BaseAction.__call__`. `tv`/`args` are the values of the local variables
`target`/`args` at the time of the exception (`none` models Python
`None`, their initial value). -/
def handleExc (msg : Message) (env : Env) (tv : Option PyVal) (args : Option PyVal)
    (e : Exc) : List Event × Outcome :=
  match e with
  | Exc.forbidden code =>
    if code = 50007 then
      match tv with
      | Option.some (PyVal.sendable Target.author) =>
        match args with
        | Option.some a =>
          match shapeCall a with
          | Option.some c =>
            match env.sendResult Target.channel c with
            | Option.some e2 => ([Event.send Target.channel c], Outcome.raised e2)
            | Option.none => ([Event.send Target.channel c], Outcome.ok)
          | Option.none => ([], Outcome.ok)
        | Option.none => ([], Outcome.ok)
      | _ =>
        let c := SendCall.plain (PyVal.pstr (cantDM msg.authorName))
        match env.sendResult Target.channel c with
        | Option.some e2 => ([Event.send Target.channel c], Outcome.raised e2)
        | Option.none => ([Event.send Target.channel c], Outcome.ok)
    else genericFail env
  | _ => genericFail env

/-- The main try block of `BaseAction.__call__`: run the action body,
clean up messages when asked to, dispatch the reply send on the payload
shape, and recover from exceptions via `handleExc`. -/
def runBody (msg : Message) (env : Env) (ss : ServerSettings) :
    List Event × Outcome :=
  match env.actionResult with
  | ActionResult.raise e =>
    let r := handleExc msg env Option.none Option.none e
    (Event.actionRun :: r.fst, r.snd)
  | ActionResult.ret rt =>
    match rt with
    | PyVal.ptuple [tv, args] =>
      let clean : List Event × Option Exc :=
        if needsCleanup ss args then
          ([Event.cleanup], env.cleanupResult)
        else ([], Option.none)
      match clean.snd with
      | Option.some e =>
        let r := handleExc msg env (Option.some tv) (Option.some args) e
        (Event.actionRun :: clean.fst ++ r.fst, r.snd)
      | Option.none =>
        match shapeCall args with
        | Option.none => (Event.actionRun :: clean.fst, Outcome.ok)
        | Option.some c =>
          match targetOf tv with
          | Option.none =>
            let r := handleExc msg env (Option.some tv) (Option.some args) Exc.attrError
            (Event.actionRun :: clean.fst ++ r.fst, r.snd)
          | Option.some t =>
            match env.sendResult t c with
            | Option.none =>
              (Event.actionRun :: clean.fst ++ [Event.send t c], Outcome.ok)
            | Option.some e =>
              let r := handleExc msg env (Option.some tv) (Option.some args) e
              (Event.actionRun :: clean.fst ++ [Event.send t c] ++ r.fst, r.snd)
    | _ => ([Event.actionRun, Event.log LogKind.err], Outcome.ok)

/-- The code after the gate try block of `BaseAction.__call__`: the
settings re-fetch `ServerController().get_by_id(msg.guild.id)` stands
outside every try, so its exception propagates; then `logger.info` and
the main try block. -/
def post_gate (msg : Message) (env : Env) : List Event × Outcome :=
  match getSettings msg env with
  | Except.error e => ([], Outcome.raised e)
  | Except.ok ss =>
    let r := runBody msg env ss
    (Event.log LogKind.info :: r.fst, r.snd)

/-- `BaseAction.__call__`, the dispatch entry point. When
`_check_proceed` raises, the code logs, sends the generic error message
and then falls through to the settings re-fetch and the action body
(there is no `return` in that `except` branch). -/
def call (a : ActionCfg) (msg : Message) (env : Env) : List Event × Outcome :=
  let g := check_proceed a msg env
  match g.snd with
  | Except.ok false => (g.fst, Outcome.ok)
  | Except.ok true =>
    let r := post_gate msg env
    (g.fst ++ r.fst, r.snd)
  | Except.error _ =>
    let c := SendCall.plain (PyVal.pstr error_message)
    match env.sendResult Target.channel c with
    | Option.some e2 =>
      (g.fst ++ [Event.log LogKind.err, Event.send Target.channel c], Outcome.raised e2)
    | Option.none =>
      let r := post_gate msg env
      (g.fst ++ [Event.log LogKind.err, Event.send Target.channel c] ++ r.fst, r.snd)

/-- All performed `.send` calls of a trace, with their targets. -/
def sends (evs : List Event) : List (Target × SendCall) :=
  evs.filterMap (fun ev =>
    match ev with
    | Event.send t c => Option.some (t, c)
    | _ => Option.none)

/-- The `.send` calls a trace performs on one target. -/
def sendsTo (t : Target) (evs : List Event) : List SendCall :=
  evs.filterMap (fun ev =>
    match ev with
    | Event.send t2 c => if t2 = t then Option.some c else Option.none
    | _ => Option.none)

/-- Whether the action body ran in a trace. -/
def ranAction (evs : List Event) : Bool :=
  evs.any (fun ev =>
    match ev with
    | Event.actionRun => true
    | _ => false)

/-! ### `BaseAction.get_message_data`

Python string primitives modelled on `List Char`: `str.strip()`,
`str.split(" ", maxsplit)` and the whitespace split `str.split()`. -/

/-- The characters Python string methods treat as (ASCII) whitespace. -/
def isSpaceChar (c : Char) : Bool :=
  c = ' ' || c = '\t' || c = '\n' || c = '\r' || c = '\x0b' || c = '\x0c'

/-- Python `str.strip()`. -/
def pyStrip (l : List Char) : List Char :=
  ((l.dropWhile isSpaceChar).reverse.dropWhile isSpaceChar).reverse

/-- Python `s.split(" ", n)`: split on the literal space character, at
most `n` splits, keeping empty fields. -/
def pySplitOnSpace : Nat → List Char → List (List Char)
  | _, [] => [[]]
  | 0, cs => [cs]
  | n + 1, c :: cs =>
    if c = ' ' then [] :: pySplitOnSpace n cs
    else
      match pySplitOnSpace (n + 1) cs with
      | [] => [[c]]
      | h :: t => (c :: h) :: t

/-- Split on every whitespace character, keeping empty fields. -/
def splitAllWs : List Char → List (List Char)
  | [] => [[]]
  | c :: cs =>
    if isSpaceChar c then [] :: splitAllWs cs
    else
      match splitAllWs cs with
      | [] => [[c]]
      | h :: t => (c :: h) :: t

/-- Python `s.split()`: split on whitespace runs, dropping empty fields. -/
def pySplitWs (l : List Char) : List (List Char) :=
  (splitAllWs l).filter (fun w => !w.isEmpty)

/-- Python `" ".join(ws)`. -/
def joinSpace : List (List Char) → List Char
  | [] => []
  | [w] => w
  | w :: ws => w ++ ' ' :: joinSpace ws

/-- `BaseAction.get_message_data`: drop the command token, split the
remainder into `data_parts` fields, collapse internal whitespace runs of
each field to single spaces; with `data_parts = 1` return the single
field as a string (the empty string when there is no data), otherwise
return the tuple of fields. -/
def get_message_data (content : String) (data_parts : Nat) : PyVal :=
  let raw := (pySplitOnSpace data_parts (pyStrip content.data)).drop 1
  let data := raw.map (fun s => joinSpace (pySplitWs s))
  if data_parts = 1 then
    match data with
    | [] => PyVal.pstr ""
    | d :: _ => PyVal.pstr (String.mk d)
  else PyVal.ptuple (data.map (fun d => PyVal.pstr (String.mk d)))

/-! ### `UserVoteCountAction.action` (`user_vote_count.py`)

The action parses an integer from the message, validates it against the
stored `num_votes_per_user` and either updates the row or returns a
failure payload. Modelled as a function from the stored value and the
parsed request to the new stored value and the returned
`(msg.channel, text)` payload. -/

def failed_lt_one : String :=
  "Failed: Number of votes per user must be greater than zero."

def failed_lt_stored (stored : Int) : String :=
  "Failed to update: Number of votes per user must be >= " ++ toString stored

def updated_notice (n : Int) : String :=
  "Number of votes per user updated to " ++ toString n

/-- `UserVoteCountAction.action`: the stored setting after the call and
the returned payload. -/
def user_vote_count_action (stored : Int) (requested : Int) : Int × PyVal :=
  if requested < 1 then
    (stored, PyVal.ptuple [PyVal.sendable Target.channel, PyVal.pstr failed_lt_one])
  else if requested < stored then
    (stored,
      PyVal.ptuple [PyVal.sendable Target.channel, PyVal.pstr (failed_lt_stored stored)])
  else
    (requested,
      PyVal.ptuple [PyVal.sendable Target.channel, PyVal.pstr (updated_notice requested)])

/-! ### Shape predicates and helper lemmas -/

/-- Python `type(rt) is tuple and len(rt) == 2`. -/
def isTwoTuple : PyVal → Bool
  | PyVal.ptuple [_, _] => true
  | _ => false

/-- When the gate denies, `__call__` returns right away with the gate
trace. -/
theorem call_gate_deny (a : ActionCfg) (msg : Message) (env : Env)
    (evs : List Event) (h : check_proceed a msg env = (evs, Except.ok false)) :
    call a msg env = (evs, Outcome.ok) := by
  simp [call, h]

/-- When the gate passes, its trace is empty and `__call__` continues
with the post-gate code. -/
theorem call_gate_pass (a : ActionCfg) (msg : Message) (env : Env)
    (h : check_proceed a msg env = ([], Except.ok true)) :
    call a msg env = post_gate msg env := by
  simp [call, h]

/-! ### Concrete fixtures used by the closed-witness theorems -/

/-- A non-admin guild-only action. -/
def cfgPlain : ActionCfg :=
  { action_name := "suggest", admin := false, guild_only := true }

/-- An admin-only, guild-only action. -/
def cfgAdmin : ActionCfg :=
  { action_name := "user_vote_count", admin := true, guild_only := true }

/-- A settings row: configured channel 7, admin role name
"movie-admin", auto-delete disabled. -/
def ssMain : ServerSettings :=
  { channel := 7, admin_role := "movie-admin", message_timeout := 0,
    num_votes_per_user := 1 }

/-- A message in guild 1, sent in channel 7 by a non-admin author with
no roles. -/
def msgGuild : Message :=
  { guildId := Option.some 1, channelId := 7, authorName := "alice",
    authorIsAdmin := false, authorRoles := [], content := "m!suggest Movie" }

/-- A direct message (no guild). -/
def msgDM : Message :=
  { guildId := Option.none, channelId := 99, authorName := "alice",
    authorIsAdmin := false, authorRoles := [], content := "m!suggest Movie" }

/-- An environment in which every platform call succeeds and the action
body returns `(channel, "hello")`. -/
def envAllOk : Env :=
  { settings := Except.ok ssMain,
    sendResult := fun _ _ => Option.none,
    actionResult :=
      ActionResult.ret (PyVal.ptuple [PyVal.sendable Target.channel, PyVal.pstr "hello"]),
    cleanupResult := Option.none }

/-! ### Claim theorems: the permission gate -/

/-- C7: for a guild-only action invoked from a direct message, the gate
denies, the author (not the channel) receives exactly one notice, and
the action body is not executed. -/
theorem gate_guild_only_dm_notice (a : ActionCfg) (msg : Message) (env : Env)
    (hgo : a.guild_only = true)
    (hdm : msg.guildId = Option.none)
    (hsend : env.sendResult Target.author (SendCall.plain (PyVal.pstr dm_notice)) =
      Option.none) :
    check_proceed a msg env =
      ([Event.log LogKind.debug,
        Event.send Target.author (SendCall.plain (PyVal.pstr dm_notice))],
        Except.ok false) ∧
    call a msg env =
      ([Event.log LogKind.debug,
        Event.send Target.author (SendCall.plain (PyVal.pstr dm_notice))],
        Outcome.ok) ∧
    sendsTo Target.author (call a msg env).fst = [SendCall.plain (PyVal.pstr dm_notice)] ∧
    sendsTo Target.channel (call a msg env).fst = [] ∧
    ranAction (call a msg env).fst = false := by
  have hcp : check_proceed a msg env =
      ([Event.log LogKind.debug,
        Event.send Target.author (SendCall.plain (PyVal.pstr dm_notice))],
        Except.ok false) := by
    simp [check_proceed, hgo, hdm, hsend]
  have hc := call_gate_deny a msg env _ hcp
  refine ⟨hcp, hc, ?_, ?_, ?_⟩ <;> rw [hc] <;> rfl

/-- C7 witness: the concrete guild-only action invoked via DM. -/
theorem gate_guild_only_dm_notice_witness :
    call cfgPlain msgDM envAllOk =
      ([Event.log LogKind.debug,
        Event.send Target.author (SendCall.plain (PyVal.pstr dm_notice))],
        Outcome.ok) :=
  (gate_guild_only_dm_notice cfgPlain msgDM envAllOk rfl rfl rfl).2.1

/-- C6: for an invocation from a guild channel other than the
configured one, the gate denies silently: no send of any kind happens
and the action body is not executed. -/
theorem gate_wrong_channel_silent (a : ActionCfg) (msg : Message) (env : Env)
    (gid : Nat) (ss : ServerSettings)
    (hg : msg.guildId = Option.some gid)
    (hs : env.settings = Except.ok ss)
    (hch : msg.channelId ≠ ss.channel) :
    check_proceed a msg env = ([Event.log LogKind.debug], Except.ok false) ∧
    call a msg env = ([Event.log LogKind.debug], Outcome.ok) ∧
    sends (call a msg env).fst = [] ∧
    ranAction (call a msg env).fst = false := by
  have hcp : check_proceed a msg env = ([Event.log LogKind.debug], Except.ok false) := by
    simp [check_proceed, getSettings, hg, hs, hch]
  have hc := call_gate_deny a msg env _ hcp
  refine ⟨hcp, hc, ?_, ?_⟩ <;> rw [hc] <;> rfl

/-- C6 witness: the concrete message sent in channel 99 while channel 7
is configured. -/
theorem gate_wrong_channel_silent_witness :
    call cfgPlain
      { guildId := Option.some 1, channelId := 99, authorName := "alice",
        authorIsAdmin := false, authorRoles := [], content := "m!suggest Movie" }
      envAllOk = ([Event.log LogKind.debug], Outcome.ok) :=
  (gate_wrong_channel_silent cfgPlain _ envAllOk 1 ssMain rfl rfl (by decide)).2.1

/-- C5: for an admin-only action, an author with neither the native
administrator flag nor the configured admin role is denied with exactly
one channel-visible refusal and the action body does not run; an author
holding either the flag or the role passes the gate. -/
theorem gate_admin_check (a : ActionCfg) (msg : Message) (env : Env)
    (gid : Nat) (ss : ServerSettings)
    (hadm : a.admin = true)
    (hg : msg.guildId = Option.some gid)
    (hs : env.settings = Except.ok ss)
    (hch : msg.channelId = ss.channel) :
    (msg.authorIsAdmin = false →
      ss.admin_role ∉ msg.authorRoles →
      env.sendResult Target.channel (SendCall.plain (PyVal.pstr not_admin_notice)) =
        Option.none →
      check_proceed a msg env =
        ([Event.log LogKind.debug,
          Event.send Target.channel (SendCall.plain (PyVal.pstr not_admin_notice))],
          Except.ok false) ∧
      call a msg env =
        ([Event.log LogKind.debug,
          Event.send Target.channel (SendCall.plain (PyVal.pstr not_admin_notice))],
          Outcome.ok) ∧
      sendsTo Target.channel (call a msg env).fst =
        [SendCall.plain (PyVal.pstr not_admin_notice)] ∧
      ranAction (call a msg env).fst = false) ∧
    (msg.authorIsAdmin = true ∨ ss.admin_role ∈ msg.authorRoles →
      check_proceed a msg env = ([], Except.ok true)) := by
  constructor
  · intro hflag hrole hsend
    have hcp : check_proceed a msg env =
        ([Event.log LogKind.debug,
          Event.send Target.channel (SendCall.plain (PyVal.pstr not_admin_notice))],
          Except.ok false) := by
      simp [check_proceed, getSettings, hg, hs, hch, hflag, hrole, hadm, hsend]
    have hc := call_gate_deny a msg env _ hcp
    refine ⟨hcp, hc, ?_, ?_⟩ <;> rw [hc] <;> rfl
  · intro hpass
    rcases hpass with hflag | hrole
    · simp [check_proceed, getSettings, hg, hs, hch, hflag]
    · simp [check_proceed, getSettings, hg, hs, hch, hrole]

/-- C5 witness: the non-admin, role-less author is refused; the same
author with the administrator flag passes. -/
theorem gate_admin_check_witness :
    call cfgAdmin msgGuild envAllOk =
      ([Event.log LogKind.debug,
        Event.send Target.channel (SendCall.plain (PyVal.pstr not_admin_notice))],
        Outcome.ok) ∧
    check_proceed cfgAdmin
      { guildId := Option.some 1, channelId := 7, authorName := "alice",
        authorIsAdmin := true, authorRoles := [], content := "m!x" }
      envAllOk = ([], Except.ok true) :=
  ⟨((gate_admin_check cfgAdmin msgGuild envAllOk 1 ssMain rfl rfl rfl rfl).1
      rfl (by decide) rfl).2.1,
    (gate_admin_check cfgAdmin _ envAllOk 1 ssMain rfl rfl rfl rfl).2 (Or.inl rfl)⟩

/-! ### Claim theorems: the dispatch envelope and the reply protocol -/

/-- An environment whose action body raises a generic exception. -/
def envRaises : Env :=
  { settings := Except.ok ssMain,
    sendResult := fun _ _ => Option.none,
    actionResult := ActionResult.raise (Exc.generic "boom"),
    cleanupResult := Option.none }

/-- An environment whose action body returns `None`. -/
def envRetNone : Env :=
  { settings := Except.ok ssMain,
    sendResult := fun _ _ => Option.none,
    actionResult := ActionResult.ret PyVal.pnone,
    cleanupResult := Option.none }

/-- C2: when the gate passes and the action body raises any exception
other than a `Forbidden` with the DM-refusal code 50007, `__call__`
logs it, performs exactly one send — the fixed generic failure message,
to the invoking channel — and returns normally (nothing propagates). -/
theorem dispatch_action_fault_generic_recovery
    (a : ActionCfg) (msg : Message) (env : Env) (gid : Nat) (ss : ServerSettings) (e : Exc)
    (hgate : check_proceed a msg env = ([], Except.ok true))
    (hg : msg.guildId = Option.some gid)
    (hs : env.settings = Except.ok ss)
    (hact : env.actionResult = ActionResult.raise e)
    (hnotdm : ∀ code : Int, e = Exc.forbidden code → code ≠ 50007)
    (hsend : env.sendResult Target.channel (SendCall.plain (PyVal.pstr error_message)) =
      Option.none) :
    call a msg env =
      ([Event.log LogKind.info, Event.actionRun, Event.log LogKind.err,
        Event.send Target.channel (SendCall.plain (PyVal.pstr error_message))],
        Outcome.ok) ∧
    sends (call a msg env).fst =
      [(Target.channel, SendCall.plain (PyVal.pstr error_message))] ∧
    (call a msg env).snd = Outcome.ok := by
  have hpost : post_gate msg env =
      ([Event.log LogKind.info, Event.actionRun, Event.log LogKind.err,
        Event.send Target.channel (SendCall.plain (PyVal.pstr error_message))],
        Outcome.ok) := by
    unfold post_gate runBody handleExc genericFail getSettings
    rw [hg, hs, hact]
    cases e with
    | forbidden code =>
      have hne := hnotdm code rfl
      simp [hne, hsend]
    | attrError => simp [hsend]
    | generic s => simp [hsend]
  have hc := call_gate_pass a msg env hgate
  rw [hc, hpost]
  exact ⟨rfl, rfl, rfl⟩

/-- C2 witness: a concrete action body raising a generic exception. -/
theorem dispatch_action_fault_generic_recovery_witness :
    call cfgPlain msgGuild envRaises =
      ([Event.log LogKind.info, Event.actionRun, Event.log LogKind.err,
        Event.send Target.channel (SendCall.plain (PyVal.pstr error_message))],
        Outcome.ok) :=
  (dispatch_action_fault_generic_recovery cfgPlain msgGuild envRaises 1 ssMain
    (Exc.generic "boom") rfl rfl rfl rfl (by intro code h; cases h) rfl).1

/-- C9: when the gate passes and the action body returns a value that is
not a two-element tuple, `__call__` logs an internal protocol error and
performs zero sends. -/
theorem dispatch_protocol_violation_no_reply
    (a : ActionCfg) (msg : Message) (env : Env) (gid : Nat) (ss : ServerSettings) (v : PyVal)
    (hgate : check_proceed a msg env = ([], Except.ok true))
    (hg : msg.guildId = Option.some gid)
    (hs : env.settings = Except.ok ss)
    (hact : env.actionResult = ActionResult.ret v)
    (hv : isTwoTuple v = false) :
    call a msg env =
      ([Event.log LogKind.info, Event.actionRun, Event.log LogKind.err], Outcome.ok) ∧
    sends (call a msg env).fst = [] ∧
    (call a msg env).snd = Outcome.ok := by
  have hpost : post_gate msg env =
      ([Event.log LogKind.info, Event.actionRun, Event.log LogKind.err], Outcome.ok) := by
    unfold post_gate runBody getSettings
    rw [hg, hs, hact]
    cases v with
    | pnone => rfl
    | pstr s => rfl
    | pint n => rfl
    | ptuple l =>
      rcases l with _ | ⟨x, _ | ⟨y, _ | ⟨z, rest⟩⟩⟩
      · rfl
      · rfl
      · exact absurd hv (by simp [isTwoTuple])
      · rfl
    | pdict l => rfl
    | sendable t => rfl
  have hc := call_gate_pass a msg env hgate
  rw [hc, hpost]
  exact ⟨rfl, rfl, rfl⟩

/-- C9 witness: a concrete action body returning `None`. -/
theorem dispatch_protocol_violation_no_reply_witness :
    call cfgPlain msgGuild envRetNone =
      ([Event.log LogKind.info, Event.actionRun, Event.log LogKind.err], Outcome.ok) :=
  (dispatch_protocol_violation_no_reply cfgPlain msgGuild envRetNone 1 ssMain PyVal.pnone
    rfl rfl rfl rfl rfl).1

/-- C4: when the gate passes and the action returns `(target, payload)`,
the reply protocol performs exactly one send on that target, with the
call shape chosen by the payload type: a string as-is (`send(args)`), a
tuple spread positionally (`send(*args)`), a dict spread as keyword
options (`send(**args)`). -/
theorem reply_protocol_send_by_shape
    (a : ActionCfg) (msg : Message) (env : Env) (gid : Nat) (ss : ServerSettings)
    (t : Target) (p : PyVal) (c : SendCall)
    (hgate : check_proceed a msg env = ([], Except.ok true))
    (hg : msg.guildId = Option.some gid)
    (hs : env.settings = Except.ok ss)
    (hact : env.actionResult =
      ActionResult.ret (PyVal.ptuple [PyVal.sendable t, p]))
    (hshape : shapeCall p = Option.some c)
    (hnc : needsCleanup ss p = false)
    (hsend : env.sendResult t c = Option.none) :
    call a msg env =
      ([Event.log LogKind.info, Event.actionRun, Event.send t c], Outcome.ok) ∧
    sends (call a msg env).fst = [(t, c)] ∧
    (∀ s : String, shapeCall (PyVal.pstr s) =
      Option.some (SendCall.plain (PyVal.pstr s))) ∧
    (∀ l : List PyVal, shapeCall (PyVal.ptuple l) =
      Option.some (SendCall.positional l)) ∧
    (∀ l : List (String × PyVal), shapeCall (PyVal.pdict l) =
      Option.some (SendCall.keyword l)) := by
  have hpost : post_gate msg env =
      ([Event.log LogKind.info, Event.actionRun, Event.send t c], Outcome.ok) := by
    unfold post_gate runBody getSettings
    rw [hg, hs, hact]
    simp [hnc, hshape, targetOf, hsend]
  have hc := call_gate_pass a msg env hgate
  rw [hc, hpost]
  exact ⟨rfl, rfl, fun _ => rfl, fun _ => rfl, fun _ => rfl⟩

/-- C4 witness: the spec round trip — an action returning
`(channel, "hello")` results in exactly one `send("hello")` on the
channel. -/
theorem reply_protocol_send_by_shape_witness :
    call cfgPlain msgGuild envAllOk =
      ([Event.log LogKind.info, Event.actionRun,
        Event.send Target.channel (SendCall.plain (PyVal.pstr "hello"))], Outcome.ok) :=
  (reply_protocol_send_by_shape cfgPlain msgGuild envAllOk 1 ssMain
    Target.channel (PyVal.pstr "hello") (SendCall.plain (PyVal.pstr "hello"))
    rfl rfl rfl rfl rfl rfl rfl).1

/-- C3: when the gate passes, the action returns `(target, payload)` and
the send on the target raises `Forbidden` 50007 ("cannot DM this user"):
if the target is the invoking author, the same payload is re-sent
exactly once to the originating channel; otherwise the channel receives
exactly one cannot-DM notice. -/
theorem dispatch_dm_refusal_reroute
    (a : ActionCfg) (msg : Message) (env : Env) (gid : Nat) (ss : ServerSettings)
    (t : Target) (p : PyVal) (c : SendCall)
    (hgate : check_proceed a msg env = ([], Except.ok true))
    (hg : msg.guildId = Option.some gid)
    (hs : env.settings = Except.ok ss)
    (hact : env.actionResult =
      ActionResult.ret (PyVal.ptuple [PyVal.sendable t, p]))
    (hshape : shapeCall p = Option.some c)
    (hnc : needsCleanup ss p = false)
    (hrefuse : env.sendResult t c = Option.some (Exc.forbidden 50007))
    (hchan : env.sendResult Target.channel c = Option.none)
    (hcant : env.sendResult Target.channel
      (SendCall.plain (PyVal.pstr (cantDM msg.authorName))) = Option.none) :
    (t = Target.author →
      call a msg env =
        ([Event.log LogKind.info, Event.actionRun, Event.send Target.author c,
          Event.send Target.channel c], Outcome.ok) ∧
      sendsTo Target.channel (call a msg env).fst = [c]) ∧
    (t ≠ Target.author →
      call a msg env =
        ([Event.log LogKind.info, Event.actionRun, Event.send t c,
          Event.send Target.channel
            (SendCall.plain (PyVal.pstr (cantDM msg.authorName)))], Outcome.ok) ∧
      (t ≠ Target.channel →
        sendsTo Target.channel (call a msg env).fst =
          [SendCall.plain (PyVal.pstr (cantDM msg.authorName))])) := by
  have hc := call_gate_pass a msg env hgate
  constructor
  · intro ht
    subst ht
    have hpost : post_gate msg env =
        ([Event.log LogKind.info, Event.actionRun, Event.send Target.author c,
          Event.send Target.channel c], Outcome.ok) := by
      unfold post_gate runBody handleExc getSettings
      rw [hg, hs, hact]
      simp [hnc, hshape, targetOf, hrefuse, hchan]
    rw [hc, hpost]
    exact ⟨rfl, rfl⟩
  · intro ht
    have hpost : post_gate msg env =
        ([Event.log LogKind.info, Event.actionRun, Event.send t c,
          Event.send Target.channel
            (SendCall.plain (PyVal.pstr (cantDM msg.authorName)))], Outcome.ok) := by
      unfold post_gate runBody handleExc getSettings
      rw [hg, hs, hact]
      cases t with
      | channel => simp [hnc, hshape, targetOf, hrefuse, hcant]
      | author => exact absurd rfl ht
      | otherDest n => simp [hnc, hshape, targetOf, hrefuse, hcant]
    rw [hc, hpost]
    refine ⟨rfl, ?_⟩
    intro htc
    cases t with
    | channel => exact absurd rfl htc
    | author => exact absurd rfl ht
    | otherDest n => rfl

/-- An environment in which the action returns `(author, "psst")` and
the DM send on the author is refused with `Forbidden` 50007. -/
def envDMRefused : Env :=
  { settings := Except.ok ssMain,
    sendResult := fun t _ =>
      match t with
      | Target.author => Option.some (Exc.forbidden 50007)
      | _ => Option.none,
    actionResult :=
      ActionResult.ret (PyVal.ptuple [PyVal.sendable Target.author, PyVal.pstr "psst"]),
    cleanupResult := Option.none }

/-- C3 witness: the spec round trip — the refused DM payload is
re-routed to the originating channel, exactly once. -/
theorem dispatch_dm_refusal_reroute_witness :
    call cfgPlain msgGuild envDMRefused =
      ([Event.log LogKind.info, Event.actionRun,
        Event.send Target.author (SendCall.plain (PyVal.pstr "psst")),
        Event.send Target.channel (SendCall.plain (PyVal.pstr "psst"))], Outcome.ok) :=
  ((dispatch_dm_refusal_reroute cfgPlain msgGuild envDMRefused 1 ssMain
    Target.author (PyVal.pstr "psst") (SendCall.plain (PyVal.pstr "psst"))
    rfl rfl rfl rfl rfl rfl rfl rfl rfl).1 rfl).1

/-! ### Claim theorem: the gate-exception fall-through (C1) -/

/-- An environment in which the guild has no settings row: every fetch
raises `DoesNotExist`. -/
def envNoPolicy : Env :=
  { settings := Except.error (Exc.generic "DoesNotExist"),
    sendResult := fun _ _ => Option.none,
    actionResult := ActionResult.ret PyVal.pnone,
    cleanupResult := Option.none }

/-- An environment in which sending the admin-refusal notice raises
`Forbidden` 50013 while every other send succeeds, and the action
returns `(channel, "done")`. -/
def envRefusalRaises : Env :=
  { settings := Except.ok ssMain,
    sendResult := fun t c =>
      match t, c with
      | Target.channel, SendCall.plain (PyVal.pstr s) =>
        if s = not_admin_notice then Option.some (Exc.forbidden 50013) else Option.none
      | _, _ => Option.none,
    actionResult :=
      ActionResult.ret (PyVal.ptuple [PyVal.sendable Target.channel, PyVal.pstr "done"]),
    cleanupResult := Option.none }

/-- C1 fails on the code: when `_check_proceed` raises, `__call__` sends
the generic error but does not return. First conjunct: with a missing
policy record the settings re-fetch after the gate — outside every try —
re-raises, so the exception propagates out of the dispatch entry point.
Second conjunct: when the gate exception comes from the refusal send,
the action body still executes. Both contradict "denies the action: the
action body is never executed and no exception propagates". -/
theorem dispatch_gate_exception_not_contained :
    call cfgPlain msgGuild envNoPolicy =
      ([Event.log LogKind.err,
        Event.send Target.channel (SendCall.plain (PyVal.pstr error_message))],
        Outcome.raised (Exc.generic "DoesNotExist")) ∧
    ranAction (call cfgAdmin msgGuild envRefusalRaises).fst = true ∧
    sendsTo Target.channel (call cfgAdmin msgGuild envRefusalRaises).fst =
      [SendCall.plain (PyVal.pstr not_admin_notice),
        SendCall.plain (PyVal.pstr error_message),
        SendCall.plain (PyVal.pstr "done")] := by
  refine ⟨rfl, rfl, rfl⟩

/-! ### Claim theorems: `get_message_data` and `user_vote_count` -/

/-- Splitting on the space character leaves a space-free string whole. -/
theorem pySplitOnSpace_no_space (n : Nat) (l : List Char) (h : (' ') ∉ l) :
    pySplitOnSpace n l = [l] := by
  induction l generalizing n with
  | nil => cases n <;> rfl
  | cons c cs ih =>
    have hc : ¬ c = ' ' := fun hceq => h (hceq ▸ List.mem_cons_self c cs)
    have hcs : (' ') ∉ cs := fun hmem => h (List.mem_cons_of_mem c hmem)
    cases n with
    | zero => rfl
    | succ m =>
      simp only [pySplitOnSpace, if_neg hc, ih (m + 1) hcs]

/-- C8: `get_message_data` on `"m!suggest   Some   Movie"` with one
expected data part yields `"Some Movie"` (internal whitespace runs
collapsed); on a message whose stripped text holds no space — only the
command token, no data — it yields the empty string, not an error. -/
theorem get_message_data_extraction :
    get_message_data "m!suggest   Some   Movie" 1 = PyVal.pstr "Some Movie" ∧
    ∀ content : String, (' ') ∉ pyStrip content.data →
      get_message_data content 1 = PyVal.pstr "" := by
  constructor
  · rfl
  · intro content h
    unfold get_message_data
    rw [pySplitOnSpace_no_space 1 (pyStrip content.data) h]
    rfl

/-- C8 witness: a message holding only the command token. -/
theorem get_message_data_extraction_witness :
    get_message_data "m!suggest" 1 = PyVal.pstr "" :=
  get_message_data_extraction.2 "m!suggest" (by decide)

/-- C10: `user_vote_count` never decreases the stored
`num_votes_per_user`: the setting changes only when the requested value
is at least 1 and at least the stored value (and then becomes the
requested value); otherwise the stored value is unchanged and the
returned payload is a `(channel, "Failed...")` message. -/
theorem user_vote_count_never_decreases (stored requested : Int) :
    stored ≤ (user_vote_count_action stored requested).fst ∧
    (1 ≤ requested → stored ≤ requested →
      user_vote_count_action stored requested =
        (requested,
          PyVal.ptuple [PyVal.sendable Target.channel,
            PyVal.pstr (updated_notice requested)])) ∧
    (¬ (1 ≤ requested ∧ stored ≤ requested) →
      (user_vote_count_action stored requested).fst = stored ∧
      ((user_vote_count_action stored requested).snd =
          PyVal.ptuple [PyVal.sendable Target.channel, PyVal.pstr failed_lt_one] ∨
        (user_vote_count_action stored requested).snd =
          PyVal.ptuple [PyVal.sendable Target.channel,
            PyVal.pstr (failed_lt_stored stored)])) := by
  unfold user_vote_count_action
  by_cases h1 : requested < 1
  · rw [if_pos h1]
    exact ⟨le_refl stored, fun ha _ => absurd ha (by omega),
      fun _ => ⟨rfl, Or.inl rfl⟩⟩
  · by_cases h2 : requested < stored
    · rw [if_neg h1, if_pos h2]
      exact ⟨le_refl stored, fun _ hb => absurd hb (by omega),
        fun _ => ⟨rfl, Or.inr rfl⟩⟩
    · rw [if_neg h1, if_neg h2]
      exact ⟨le_of_not_lt h2, fun _ _ => rfl,
        fun hno => absurd ⟨by omega, by omega⟩ hno⟩

/-- C10 witness: requesting 1 while 5 is stored fails and leaves the
setting at 5; requesting 7 updates it to 7. -/
theorem user_vote_count_never_decreases_witness :
    (user_vote_count_action 5 1).fst = 5 ∧
    user_vote_count_action 5 7 =
      (7, PyVal.ptuple [PyVal.sendable Target.channel,
        PyVal.pstr (updated_notice 7)]) :=
  ⟨((user_vote_count_never_decreases 5 1).2.2 (by omega)).1,
    (user_vote_count_never_decreases 5 7).2.1 (by omega) (by omega)⟩

end MovieNightBot
